import Mathlib

/-!
Verification development for the resume-agent-template-engine repository:
a shallow embedding of the template discovery/binding logic
(`templates/template_manager.py`), the LaTeX escaping and body generation
of the two resume renderers (`templates/resume/minimalist/helper.py`,
`templates/resume/twocolumn/helper.py`), the DOCX section formatting
(`core/docx_generator.py`) and the generation pipeline of the API layer
(`api/app.py`), together with theorems settling the specification claims.
-/

set_option maxRecDepth 8000

namespace ResumeEngine

/-- Embedding of the Python/JSON value trees the engine operates on: strings,
numbers, booleans, None, lists, and dicts (insertion-ordered key/value lists,
matching CPython dict semantics). -/
inductive PyVal where
  | str (s : String)
  | int (n : Int)
  | bool (b : Bool)
  | none
  | list (xs : List PyVal)
  | dict (kvs : List (String × PyVal))

/-- Whether the second character list starts with the first one. -/
def startsWithChars : List Char → List Char → Bool
  | [], _ => true
  | _ :: _, [] => false
  | p :: ps, c :: cs => p == c && startsWithChars ps cs

/-- Fuelled scanner implementing Python `str.replace`: left-to-right,
non-overlapping; at each position, if the pattern matches, emit the
replacement and skip the matched characters, otherwise keep the head
character.  The fuel is the length of the list, which suffices because every
step consumes at least one character of the remaining input. -/
def replaceFuel : Nat → List Char → List Char → List Char → List Char
  | 0, _, _, l => l
  | Nat.succ n, pat, rep, l =>
    match l with
    | [] => []
    | c :: cs =>
      if !pat.isEmpty && startsWithChars pat (c :: cs) then
        rep ++ replaceFuel n pat rep (List.drop pat.length (c :: cs))
      else
        c :: replaceFuel n pat rep cs

/-- Python `text.replace(pat, rep)` for a nonempty pattern. -/
def pyReplace (s pat rep : String) : String :=
  String.mk (replaceFuel s.data.length pat.data rep.data s.data)

/-- The replacement table of `_escape_latex_special_chars` (both helpers have
byte-identical copies), in CPython dict insertion order, which is the order
the `for char, escaped_char in chars.items()` loop applies the passes. -/
def latexEscapePairs : List (String × String) :=
  [("&", "\\&"), ("%", "\\%"), ("$", "\\$"), ("#", "\\#"), ("_", "\\_"),
   ("\x7b", "\\\x7b"), ("\x7d", "\\\x7d"),
   ("~", "\\textasciitilde\x7b\x7d"), ("^", "\\textasciicircum\x7b\x7d"),
   ("\\", "\\textbackslash\x7b\x7d"), ("<", "\\textless\x7b\x7d"),
   (">", "\\textgreater\x7b\x7d")]

/-- The helpers' `_escape_latex_special_chars` applied to a string: the twelve
`str.replace` passes run sequentially over the whole (already partially
rewritten) string. -/
def escape_latex_special_chars (text : String) : String :=
  latexEscapePairs.foldl (fun t p => pyReplace t p.1 p.2) text

mutual

/-- The helpers' `_escape_latex_special_chars_recursive`: escape string
leaves, recurse into dicts and lists, pass every other value through. -/
def escape_latex_special_chars_recursive : PyVal → PyVal
  | .str s => .str (escape_latex_special_chars s)
  | .dict kvs => .dict (escapeRecDict kvs)
  | .list xs => .list (escapeRecList xs)
  | .int n => .int n
  | .bool b => .bool b
  | .none => .none

/-- Recursion of the escaper through a Python list. -/
def escapeRecList : List PyVal → List PyVal
  | [] => []
  | x :: xs => escape_latex_special_chars_recursive x :: escapeRecList xs

/-- Recursion of the escaper through the entries of a Python dict
(keys are left untouched, exactly as in the source comprehension). -/
def escapeRecDict : List (String × PyVal) → List (String × PyVal)
  | [] => []
  | (k, v) :: kvs => (k, escape_latex_special_chars_recursive v) :: escapeRecDict kvs

end

/-- A character occurrence in a string is "raw" when it is not immediately
preceded by a backslash; `escape_latex_special_chars` is meant to leave no raw
occurrence of any character of its table. -/
def hasRawCharFrom : Option Char → List Char → Char → Bool
  | _, [], _ => false
  | prev, c :: cs, t =>
    (c == t && !(prev == some '\\')) || hasRawCharFrom (some c) cs t

/-- Whether `s` contains a raw (not backslash-preceded) occurrence of `t`. -/
def hasRawChar (s : String) (t : Char) : Bool :=
  hasRawCharFrom Option.none s.data t

/-- Python `str.split(sep)` for a single-character separator: splitting an
empty string yields one empty group, and consecutive separators yield empty
groups. -/
def splitOnCharAux (sep : Char) : List Char → List (List Char)
  | [] => [[]]
  | c :: cs =>
    match splitOnCharAux sep cs with
    | [] => [[]]
    | g :: gs => if c == sep then [] :: g :: gs else (c :: g) :: gs

/-- Python `s.split("_")`. -/
def pySplitUnderscore (s : String) : List String :=
  (splitOnCharAux '_' s.data).map String.mk

/-- Python `str.capitalize`: first character uppercased, all remaining
characters lowercased (ASCII approximation of the Unicode rule, which agrees
on every identifier the engine builds). -/
def pyCapitalize (s : String) : String :=
  match s.data with
  | [] => ""
  | c :: cs => String.mk (c.toUpper :: cs.map Char.toLower)

/-- The category part of the class-name convention in `load_template`:
`"cover_letter"` becomes `"CoverLetter"`; a category without an underscore is
simply capitalized. -/
def categoryCamelCase (category : String) : String :=
  if category.data.contains '_' then
    String.join ((pySplitUnderscore category).map pyCapitalize)
  else
    pyCapitalize category

/-- The class name `load_template` expects the helper module to define:
`f"\x7btemplate_name.capitalize()\x7d\x7bcategory_camel_case\x7dHelper"`. -/
def expectedClassName (category template_name : String) : String :=
  pyCapitalize template_name ++ categoryCamelCase category ++ "Helper"

/-- Python `s.startswith(pre)`. -/
def pyStartsWith (s pre : String) : Bool :=
  startsWithChars pre.data s.data

/-- A template directory inside a category, as `_discover_templates` and
`load_template` observe it on storage: its name, whether it is a directory,
whether `helper.py` exists, whether at least one `.tex` file exists, and the
top-level names (`dir(module)`) that executing `helper.py` defines. -/
structure TemplateDirEntry where
  name : String
  isDir : Bool
  hasHelperFile : Bool
  hasTexFile : Bool
  helperModuleNames : List String

/-- An immediate child of the templates root: a candidate category. -/
structure CategoryEntry where
  name : String
  isDir : Bool
  templates : List TemplateDirEntry

/-- The templates root directory (`templates_dir`) as seen on storage. -/
structure TemplatesDir where
  rootExists : Bool
  entries : List CategoryEntry

/-- The catalog: an insertion-ordered mapping from category name to the list
of discovered template names (a Python dict of lists). -/
abbrev Catalog := List (String × List String)

/-- Dict lookup in the catalog. -/
def catalogFind (c : Catalog) (category : String) : Option (List String) :=
  match c.find? (fun p => p.1 == category) with
  | Option.none => Option.none
  | some p => some p.2

/-- The scanning body of `_discover_templates` (the part below the cache
check): raise `FileNotFoundError` if the root is missing; otherwise every
directory child whose name does not start with `__` becomes a category, and a
template qualifies only if it is a directory, its name does not start with
`__`, it has a `helper.py`, and it has at least one `.tex` file. -/
def discoverScan (fs : TemplatesDir) : Except String Catalog :=
  if !fs.rootExists then
    .error "Templates directory not found"
  else
    .ok (fs.entries.filterMap (fun cat =>
      if cat.isDir && !pyStartsWith cat.name "__" then
        some (cat.name, cat.templates.filterMap (fun t =>
          if t.isDir && !pyStartsWith t.name "__" && t.hasHelperFile && t.hasTexFile then
            some t.name
          else
            Option.none))
      else
        Option.none))

/-- One call to `get_available_templates()` (no category argument), with the
class-level `_cached_templates` threaded explicitly: if the cache is
populated it is returned as is, with no storage scan; otherwise
`_discover_templates` scans and, on success, populates the cache.  The `Nat`
counts storage scans performed by this call. -/
def get_available_templates_all (fs : TemplatesDir) (cache : Option Catalog) :
    Except String Catalog × Option Catalog × Nat :=
  match cache with
  | some c => (.ok c, some c, 0)
  | Option.none =>
    match discoverScan fs with
    | .error e => (.error e, Option.none, 1)
    | .ok t => (.ok t, some t, 1)

/-- The outcome of a sequence of `get_available_templates()` calls, possibly
each from a different `TemplateManager` instance with its own
`templates_dir`. -/
structure CallsResult where
  results : List (Except String Catalog)
  cache : Option Catalog
  scans : Nat

/-- Run a sequence of `get_available_templates()` calls against the
class-level cache, each call seeing the storage its instance points at. -/
def runCalls : List TemplatesDir → Option Catalog → CallsResult
  | [], cache => ⟨[], cache, 0⟩
  | fs :: rest, cache =>
    let r := get_available_templates_all fs cache
    let rr := runCalls rest r.2.1
    ⟨r.1 :: rr.results, rr.cache, r.2.2 + rr.scans⟩

/-- A constructed `TemplateManager` instance: its `templates_dir` and the
`available_templates` attribute populated by `__init__`. -/
structure TMInstance where
  templates_dir : TemplatesDir
  available_templates : Catalog

/-- `TemplateManager.__init__(templates_dir)`: store the directory and call
`get_available_templates()` against the class-level cache. -/
def TemplateManager_init (fs : TemplatesDir) (cache : Option Catalog) :
    Except String TMInstance × Option Catalog × Nat :=
  match get_available_templates_all fs cache with
  | (.ok c, cache2, n) => (.ok ⟨fs, c⟩, cache2, n)
  | (.error e, cache2, n) => (.error e, cache2, n)

/-- The failure modes of `load_template` (each a `FileNotFoundError` or
`ValueError` in the source, distinguished here by their message). -/
inductive LoadErr where
  | discoveryFailed (msg : String)
  | categoryNotFound (category : String)
  | templateNotFound (template_name : String)
  | moduleLoadFailed (category template_name : String)
  | helperClassNotFound (expected : String) (availableAttrs : List String)
  deriving DecidableEq

/-- Locate the on-storage entry for `category/template_name`, as the dynamic
module load does through the filesystem path. -/
def findTemplateEntry (fs : TemplatesDir) (category template_name : String) :
    Option TemplateDirEntry :=
  match fs.entries.find? (fun c => c.name == category) with
  | Option.none => Option.none
  | some cat => cat.templates.find? (fun t => t.name == template_name)

/-- `TemplateManager.load_template(category, template_name)`: validate the
category and name against the (cached or freshly scanned) catalog, execute
the template's `helper.py` (modelled as yielding the list of names the module
defines), and bind the class named by the convention
`template_name.capitalize() + categoryCamelCase + "Helper"`; if that name is
absent, fail with a `ValueError` reporting the module attributes that do not
start with an underscore.  Returns the bound class name on success. -/
def load_template (fs : TemplatesDir) (cache : Option Catalog)
    (category template_name : String) :
    Except LoadErr String × Option Catalog × Nat :=
  match get_available_templates_all fs cache with
  | (.error e, cache2, n) => (.error (.discoveryFailed e), cache2, n)
  | (.ok cat, cache2, n) =>
    match catalogFind cat category with
    | Option.none => (.error (.categoryNotFound category), cache2, n)
    | some names =>
      if !names.contains template_name then
        (.error (.templateNotFound template_name), cache2, n)
      else
        match findTemplateEntry fs category template_name with
        | Option.none => (.error (.moduleLoadFailed category template_name), cache2, n)
        | some entry =>
          let expected := expectedClassName category template_name
          if entry.helperModuleNames.contains expected then
            (.ok expected, cache2, n)
          else
            (.error (.helperClassNotFound expected
              (entry.helperModuleNames.filter (fun a => !pyStartsWith a "_"))), cache2, n)

/-- Python truthiness for the values the renderers test with `if details_list:`. -/
def pyTruthy : PyVal → Bool
  | .str s => !(s == "")
  | .list xs => !xs.isEmpty
  | .dict kvs => !kvs.isEmpty
  | .int n => !(n == 0)
  | .bool b => b
  | .none => false

/-- Python iteration (`for detail in details_list`): a list yields its
elements, a string yields its characters as one-character strings, a dict
yields its keys.  (Iterating an int/bool/None raises `TypeError` in Python;
those cases never arise for the inputs the claims quantify over.) -/
def pyIterate : PyVal → List PyVal
  | .list xs => xs
  | .str s => s.data.map (fun c => PyVal.str (String.mk [c]))
  | .dict kvs => kvs.map (fun kv => PyVal.str kv.1)
  | _ => []

/-- Python `str(v)` / f-string interpolation for the leaf values the
renderers interpolate. -/
def pyStrOf : PyVal → String
  | .str s => s
  | .int n => toString n
  | .bool b => if b then "True" else "False"
  | .none => "None"
  | .list _ => ""
  | .dict _ => ""

/-- `_escape_latex_special_chars` as applied to an arbitrary value: the
`isinstance(text, str)` guard returns non-strings unchanged. -/
def escapeIfStr : PyVal → PyVal
  | .str s => .str (escape_latex_special_chars s)
  | v => v

/-- The `\item` lines the minimalist helper's `_generate_experience_section`
builds from one experience entry's `details` value (lines 102-106): if
`details_list` is truthy, iterate it, escaping each element again with
`_escape_latex_special_chars`; otherwise no lines. -/
def minimalistDetailItems (details : PyVal) : List String :=
  if pyTruthy details then
    (pyIterate details).map
      (fun d => "            \\item " ++ pyStrOf (escapeIfStr d))
  else []

/-- The joined `details_latex` string of the minimalist helper. -/
def minimalistDetailsLatex (details : PyVal) : String :=
  String.intercalate "\n" (minimalistDetailItems details)

/-- The `\item` lines the twocolumn helper's `_generate_right_column_content`
builds from one experience entry's `details` value (lines 124-125): iterate
it and interpolate each element verbatim (the comment there says
"Already escaped"). -/
def twocolumnDetailItems (details : PyVal) : List String :=
  (pyIterate details).map (fun d => "            \\item " ++ pyStrOf d)

/-- The joined `details_latex` string of the twocolumn helper. -/
def twocolumnDetailsLatex (details : PyVal) : String :=
  String.intercalate "\n" (twocolumnDetailItems details)

/-- The bullet paragraphs `_format_experience_item` in
`core/docx_generator.py` (lines 32-37) adds for an experience entry's
`details` value: a list yields one `ListBullet` paragraph per element
(`str(detail)`), a single string yields exactly one, anything else yields
none. -/
def docxDetailBullets (details : PyVal) : List String :=
  match details with
  | .list xs => xs.map pyStrOf
  | .str s => [s]
  | _ => []

/-- The `\item` lines the minimalist renderer finally emits for a raw
`details` list of strings: `__init__` (line 20) escapes the whole data tree,
and `_generate_experience_section` (line 106) escapes each stored detail a
second time. -/
def minimalistPipelineDetailItems (raw : List String) : List String :=
  minimalistDetailItems
    (escape_latex_special_chars_recursive (.list (raw.map PyVal.str)))

/-- The `\item` lines the twocolumn renderer finally emits for a raw
`details` list of strings: `__init__` (line 21) escapes the whole data tree
and the section generator interpolates each stored detail verbatim. -/
def twocolumnPipelineDetailItems (raw : List String) : List String :=
  twocolumnDetailItems
    (escape_latex_special_chars_recursive (.list (raw.map PyVal.str)))

/-- Outcome of one `subprocess.run(compile_cmd, check=True, ..., timeout=30)`
invocation of pdflatex. -/
inductive PassOutcome where
  | completed
  | calledProcessError (returncode : Int) (stdout stderr : String)
  | timeoutExpired (timeout : Nat)
  deriving DecidableEq

/-- The environment one `export_to_pdf` call observes: the outcome of each
pdflatex pass, the contents of `resume.log` in the scratch directory if that
file exists, and whether `resume.pdf` exists after the passes. -/
structure LatexRun where
  pass1 : PassOutcome
  pass2 : PassOutcome
  logContents : Option String
  pdfProduced : Bool
  deriving DecidableEq

/-- Result of `export_to_pdf`.  The exceptions the source raises carry
formatted message strings; here each carried datum is a separate field: a
`RuntimeError` for a failed pass interpolates return code, stdout, stderr and
the log, a `RuntimeError` for a timeout interpolates only the timeout
duration, a `FileNotFoundError` for a missing PDF interpolates the log, and
`nameError` models an unresolved global name (`NameError`). -/
inductive ExportOutcome where
  | ok (path : String)
  | compilationFailed (returncode : Int) (stdout stderr latexLog : String)
  | compilationTimedOut (timeout : Nat)
  | pdfNotFound (latexLog : String)
  | nameError (unresolvedGlobal : String)
  deriving DecidableEq

/-- A failed pass, as classified by the two `except` clauses. -/
inductive PassFail where
  | err (returncode : Int) (stdout stderr : String)
  | timeout (t : Nat)
  deriving DecidableEq

/-- Classify one pass. -/
def passResult : PassOutcome → Except PassFail Unit
  | .completed => .ok ()
  | .calledProcessError rc out err => .error (.err rc out err)
  | .timeoutExpired t => .error (.timeout t)

/-- The two sequential `subprocess.run` calls: the second pass runs only if
the first completed. -/
def passesResult (p1 p2 : PassOutcome) : Except PassFail Unit :=
  match passResult p1 with
  | .error f => .error f
  | .ok _ => passResult p2

/-- The module-level imports of `templates/resume/minimalist/helper.py`:
`shutil` is **not** among them (it is imported only inside the
`if __name__ == '__main__':` block), so the name `shutil` is unbound when the
module is loaded by `load_template`. -/
def minimalistModuleImports : List String :=
  ["os", "re", "subprocess", "tempfile"]

/-- The module-level imports of `templates/resume/twocolumn/helper.py`,
which do include `shutil`. -/
def twocolumnModuleImports : List String :=
  ["os", "re", "subprocess", "tempfile", "shutil"]

/-- `export_to_pdf(output_path)` common to both helpers, parameterized by the
module's import list: run pdflatex twice; a `CalledProcessError` raises a
`RuntimeError` carrying return code, stdout, stderr and the log file
contents (empty string if the log does not exist); a `TimeoutExpired` raises
a `RuntimeError` carrying only the duration; if both passes succeed but
`resume.pdf` is missing, raise a `FileNotFoundError` carrying the log;
otherwise evaluate `shutil.move(...)` — which resolves only if the module
imported `shutil` — and return `output_path`. -/
def export_to_pdf (imports : List String) (run : LatexRun)
    (output_path : String) : ExportOutcome :=
  match passesResult run.pass1 run.pass2 with
  | .error (.err rc out err) =>
      .compilationFailed rc out err (run.logContents.getD "")
  | .error (.timeout t) => .compilationTimedOut t
  | .ok _ =>
      if run.pdfProduced then
        if imports.contains "shutil" then .ok output_path
        else .nameError "shutil"
      else .pdfNotFound (run.logContents.getD "")

/-- `MinimalistResumeHelper.export_to_pdf`. -/
def minimalist_export_to_pdf (run : LatexRun) (output_path : String) :
    ExportOutcome :=
  export_to_pdf minimalistModuleImports run output_path

/-- `TwocolumnResumeHelper.export_to_pdf`. -/
def twocolumn_export_to_pdf (run : LatexRun) (output_path : String) :
    ExportOutcome :=
  export_to_pdf twocolumnModuleImports run output_path

/-- The request's `document_type` field (a str-valued enum). -/
inductive DocumentType where
  | resume
  | cover_letter
  deriving DecidableEq

/-- The string value of the enum member, used in catalog lookups. -/
def DocumentType.value : DocumentType → String
  | .resume => "resume"
  | .cover_letter => "cover_letter"

/-- The request's `format` field. -/
inductive DocFormat where
  | pdf
  | docx
  deriving DecidableEq

/-- The parts of a `DocumentRequest` that drive control flow in
`generate_document` (`data` passed schema validation upstream). -/
structure GenRequest where
  document_type : DocumentType
  template : String
  format : DocFormat
  clean_up : Bool

/-- The `HTTPException`s `generate_document` can raise, with their payload
data as fields. -/
inductive GenError where
  | docTypeNotSupported (t : String)
  | templateNotFoundHttp (tmpl : String)
  | docxOnlyForResumes
  | generationFailed (msg : String)
  | internalError (msg : String)
  deriving DecidableEq

/-- The HTTP status code each error is raised with. -/
def GenError.statusCode : GenError → Nat
  | .docTypeNotSupported _ => 404
  | .templateNotFoundHttp _ => 404
  | .docxOnlyForResumes => 400
  | .generationFailed _ => 500
  | .internalError _ => 500

/-- Result of one `/generate` request: the response (a file path, or a raised
`HTTPException`), whether a scratch output file was allocated with
`NamedTemporaryFile(delete=False)`, and whether that scratch file is still on
disk when the handler finishes (before any background cleanup task runs). -/
structure GenResult where
  response : Except GenError String
  scratchAllocated : Bool
  scratchOnDisk : Bool

/-- The `/generate` handler `generate_document` in `api/app.py`: construct a
`TemplateManager` (scanning or using the class cache), 404 if the document
type is not a catalog key, 404 if the template is not in its entry; on the
PDF path (after re-checking the same two conditions, lines 171-180) allocate
a scratch `.pdf` file, render, and on any renderer exception remove the
scratch file and raise 500; on the DOCX path, 400 before allocating anything
if the document type is `cover_letter`, otherwise allocate a scratch `.docx`
file, render, and on exception remove the scratch file and raise 500.
`render` is the outcome of the renderer call, `scratchPath` the allocated
temporary path. -/
def generate_document (fs : TemplatesDir) (cache : Option Catalog)
    (req : GenRequest) (render : Except String Unit) (scratchPath : String) :
    GenResult × Option Catalog :=
  match get_available_templates_all fs cache with
  | (.error e, cache2, _) => (⟨.error (.internalError e), false, false⟩, cache2)
  | (.ok available, cache2, _) =>
    match catalogFind available req.document_type.value with
    | Option.none =>
        (⟨.error (.docTypeNotSupported req.document_type.value), false, false⟩,
         cache2)
    | some tmpls =>
      if !tmpls.contains req.template then
        (⟨.error (.templateNotFoundHttp req.template), false, false⟩, cache2)
      else
        match req.format with
        | .pdf =>
          match render with
          | .ok _ => (⟨.ok scratchPath, true, true⟩, cache2)
          | .error e => (⟨.error (.generationFailed e), true, false⟩, cache2)
        | .docx =>
          if req.document_type = .cover_letter then
            (⟨.error .docxOnlyForResumes, false, false⟩, cache2)
          else
            match render with
            | .ok _ => (⟨.ok scratchPath, true, true⟩, cache2)
            | .error e => (⟨.error (.generationFailed e), true, false⟩, cache2)

/-- Storage fixture: the `resume/goodone` template directory, whose helper
module defines the conventionally named class. -/
def tplGoodone : TemplateDirEntry :=
  ⟨"goodone", true, true, true, ["GoodoneResumeHelper"]⟩

/-- Storage fixture: a `resume/broken` template directory that qualifies for
the catalog (it has `helper.py` and a `.tex` file) but whose helper module
does not define the conventionally named class (`dir(module)` listed in its
sorted order). -/
def tplBroken : TemplateDirEntry :=
  ⟨"broken", true, true, true, ["SomeOtherClass", "os"]⟩

/-- Storage fixture: the `cover_letter/classic` template directory. -/
def tplClassicCL : TemplateDirEntry :=
  ⟨"classic", true, true, true, ["ClassicCoverLetterHelper"]⟩

/-- Storage fixture: a root with a single `resume` category. -/
def fsMain : TemplatesDir := ⟨true, [⟨"resume", true, [tplGoodone]⟩]⟩

/-- Storage fixture: a root whose catalog contains `resume/broken`. -/
def fsBroken : TemplatesDir := ⟨true, [⟨"resume", true, [tplBroken]⟩]⟩

/-- Storage fixture: a nonexistent templates root. -/
def fsMissingRoot : TemplatesDir := ⟨false, []⟩

/-- Storage fixture: a root with both a `resume` and a `cover_letter`
category. -/
def fsWithCoverLetter : TemplatesDir :=
  ⟨true, [⟨"resume", true, [tplGoodone]⟩, ⟨"cover_letter", true, [tplClassicCL]⟩]⟩

/-- Compiler fixture: both pdflatex passes succeed and `resume.pdf` exists. -/
def latexRunSuccess : LatexRun :=
  ⟨.completed, .completed, some "latex log text", true⟩

/-- Once the class-level cache holds `c`, every further
`get_available_templates()` call returns `c` and performs no scan, whatever
storage its instance points at. -/
theorem runCalls_cached (fss : List TemplatesDir) (c : Catalog) :
    runCalls fss (some c) = ⟨fss.map (fun _ => Except.ok c), some c, 0⟩ := by
  induction fss with
  | nil => rfl
  | cons fs rest ih => simp [runCalls, get_available_templates_all, ih]

/-- C1: the claim says that for every string leaf containing one of the
special characters, the escaper leaves no raw (unescaped) instance of any
listed character.  The code violates this: the passes run sequentially and
the tenth pass rewrites the backslashes introduced by the earlier passes, so
escaping `"&"` yields `"\textbackslash{}&"`, whose trailing `&` is raw.  The
code's own docstring ("Escapes special LaTeX characters") and the spec agree
on the intent, so this is a code bug. -/
theorem C1_escape_reintroduces_raw_char :
    escape_latex_special_chars "&" = "\\textbackslash\x7b\x7d&" ∧
    hasRawChar (escape_latex_special_chars "&") '&' = true ∧
    escape_latex_special_chars_recursive (.str "&") =
      .str "\\textbackslash\x7b\x7d&" := by
  refine ⟨by decide, by decide, ?_⟩
  simp only [escape_latex_special_chars_recursive, PyVal.str.injEq]
  decide

/-- C2: after the first successful scan populates the class-level cache,
every subsequent `get_available_templates()` call — from the same instance or
any newly constructed one, whatever storage it points at — returns the same
catalog, and exactly one storage scan happens in total. -/
theorem C2_one_scan_then_cached (fs0 : TemplatesDir) (fss : List TemplatesDir)
    (c : Catalog) (h : discoverScan fs0 = Except.ok c) :
    runCalls (fs0 :: fss) Option.none =
      ⟨(fs0 :: fss).map (fun _ => Except.ok c), some c, 1⟩ := by
  simp [runCalls, get_available_templates_all, h, runCalls_cached]

/-- C2 witness: a concrete first scan of `fsMain` followed by a call against
a nonexistent root still returns the `fsMain` catalog with one total scan. -/
theorem C2_one_scan_then_cached_witness :
    runCalls [fsMain, fsMissingRoot] Option.none =
      ⟨[Except.ok [("resume", ["goodone"])], Except.ok [("resume", ["goodone"])]],
       some [("resume", ["goodone"])], 1⟩ :=
  C2_one_scan_then_cached fsMain [fsMissingRoot] [("resume", ["goodone"])] rfl

/-- C9: the catalog cache is keyed to the class: constructing
`TemplateManager` instances over any two storage roots (in particular, a root
that does not even exist) against a populated cache returns the cached
catalog for both, with no scan and no existence check. -/
theorem C9_cache_ignores_instance_dir (fs1 fs2 : TemplatesDir) (c : Catalog) :
    TemplateManager_init fs1 (some c) = (Except.ok ⟨fs1, c⟩, some c, 0) ∧
    TemplateManager_init fs2 (some c) = (Except.ok ⟨fs2, c⟩, some c, 0) :=
  ⟨rfl, rfl⟩

/-- C3 counterexample: `resume/broken` has a `helper.py` and a `.tex` file,
so it is a member of the catalog entry for `resume`, yet `load_template`
does not succeed on it: the helper module lacks the conventionally named
class, so binding fails.  This refutes the half of the claim that says every
catalog member binds successfully. -/
theorem C3_counterexample :
    discoverScan fsBroken = Except.ok [("resume", ["broken"])] ∧
    (load_template fsBroken Option.none "resume" "broken").1 =
      .error (.helperClassNotFound "BrokenResumeHelper" ["SomeOtherClass", "os"]) ∧
    (Except.error (LoadErr.helperClassNotFound "BrokenResumeHelper"
        ["SomeOtherClass", "os"]) : Except LoadErr String) ≠
      .ok "BrokenResumeHelper" := by
  refine ⟨rfl, rfl, by simp⟩

/-- C3 (amended): for a category present in the catalog, `load_template`
fails with the template-not-found error for every name outside the catalog
entry; for a member name it succeeds — binding the conventional class name —
exactly when the template's helper module defines that class. -/
theorem C3_member_names_bind_or_fail (fs : TemplatesDir) (cache : Option Catalog)
    (available : Catalog) (category name : String) (names : List String)
    (hcat : (get_available_templates_all fs cache).1 = .ok available)
    (hfind : catalogFind available category = some names) :
    (names.contains name = false →
      (load_template fs cache category name).1 =
        .error (.templateNotFound name)) ∧
    (names.contains name = true →
      ((load_template fs cache category name).1 =
          .ok (expectedClassName category name) ↔
        ∃ entry, findTemplateEntry fs category name = some entry ∧
          entry.helperModuleNames.contains (expectedClassName category name) = true)) := by
  rcases hg : get_available_templates_all fs cache with ⟨res, cache2, n⟩
  have hres : res = .ok available := by
    have := hcat
    rw [hg] at this
    exact this
  subst hres
  constructor
  · intro hmem
    have hmem2 : ¬ name ∈ names := by simpa using hmem
    simp [load_template, hg, hfind, hmem2]
  · intro hmem
    have hmem2 : name ∈ names := by simpa using hmem
    cases hentry : findTemplateEntry fs category name with
    | none =>
      simp [load_template, hg, hfind, hmem2, hentry]
    | some entry =>
      cases hcls : entry.helperModuleNames.contains (expectedClassName category name) with
      | false =>
        have hcls2 : ¬ expectedClassName category name ∈ entry.helperModuleNames := by
          simpa using hcls
        have hload : (load_template fs cache category name).1 =
            .error (.helperClassNotFound (expectedClassName category name)
              (entry.helperModuleNames.filter (fun a => !pyStartsWith a "_"))) := by
          simp [load_template, hg, hfind, hmem2, hentry, hcls2]
        rw [hload]
        constructor
        · intro h
          exact absurd h (by simp)
        · rintro ⟨entry2, hentry2, hc2⟩
          injection hentry2 with hentry2
          subst hentry2
          rw [hcls] at hc2
          exact absurd hc2 (by simp)
      | true =>
        have hcls2 : expectedClassName category name ∈ entry.helperModuleNames := by
          simpa using hcls
        have hload : (load_template fs cache category name).1 =
            .ok (expectedClassName category name) := by
          simp [load_template, hg, hfind, hmem2, hentry, hcls2]
        rw [hload]
        exact ⟨fun _ => ⟨entry, rfl, hcls⟩, fun _ => rfl⟩

/-- C3 witness: on `fsMain`, the non-member name `nope` fails with the
template-not-found error, and the member name `goodone` binds
`GoodoneResumeHelper`. -/
theorem C3_member_names_bind_or_fail_witness :
    (load_template fsMain Option.none "resume" "nope").1 =
      .error (.templateNotFound "nope") ∧
    (load_template fsMain Option.none "resume" "goodone").1 =
      .ok "GoodoneResumeHelper" := by
  constructor
  · exact (C3_member_names_bind_or_fail fsMain Option.none [("resume", ["goodone"])]
      "resume" "nope" ["goodone"] rfl rfl).1 rfl
  · exact ((C3_member_names_bind_or_fail fsMain Option.none [("resume", ["goodone"])]
      "resume" "goodone" ["goodone"] rfl rfl).2 rfl).mpr ⟨tplGoodone, rfl, rfl⟩

/-- C4 counterexample: the binding convention suffixes `Helper`, not
`Renderer`: category `cover_letter` with name `classic` expects
`ClassicCoverLetterHelper`, not the claimed `ClassicCoverLetterRenderer`. -/
theorem C4_counterexample :
    expectedClassName "cover_letter" "classic" = "ClassicCoverLetterHelper" ∧
    expectedClassName "cover_letter" "classic" ≠ "ClassicCoverLetterRenderer" :=
  ⟨by decide, by decide⟩

/-- C4 (amended): `load_template` binds the implementation by the convention
`Capitalize(template_name) + PascalCase(category) + "Helper"`, and when that
identifier is absent from the loaded module it fails with an error reporting
the module's identifiers that do not start with an underscore. -/
theorem C4_binding_convention (fs : TemplatesDir) (cache : Option Catalog)
    (available : Catalog) (category name : String) (names : List String)
    (entry : TemplateDirEntry)
    (hcat : (get_available_templates_all fs cache).1 = .ok available)
    (hfind : catalogFind available category = some names)
    (hmem : names.contains name = true)
    (hentry : findTemplateEntry fs category name = some entry) :
    (entry.helperModuleNames.contains
        (pyCapitalize name ++ categoryCamelCase category ++ "Helper") = true →
      (load_template fs cache category name).1 =
        .ok (pyCapitalize name ++ categoryCamelCase category ++ "Helper")) ∧
    (entry.helperModuleNames.contains
        (pyCapitalize name ++ categoryCamelCase category ++ "Helper") = false →
      (load_template fs cache category name).1 =
        .error (.helperClassNotFound
          (pyCapitalize name ++ categoryCamelCase category ++ "Helper")
          (entry.helperModuleNames.filter (fun a => !pyStartsWith a "_")))) := by
  rcases hg : get_available_templates_all fs cache with ⟨res, cache2, n⟩
  have hres : res = .ok available := by
    have := hcat
    rw [hg] at this
    exact this
  subst hres
  have hmem2 : name ∈ names := by simpa using hmem
  constructor
  · intro hcls
    have hcls2 : pyCapitalize name ++ categoryCamelCase category ++ "Helper" ∈
        entry.helperModuleNames := by simpa using hcls
    simp [load_template, hg, hfind, hmem2, hentry, expectedClassName, hcls2]
  · intro hcls
    have hcls2 : ¬ pyCapitalize name ++ categoryCamelCase category ++ "Helper" ∈
        entry.helperModuleNames := by simpa using hcls
    simp [load_template, hg, hfind, hmem2, hentry, expectedClassName, hcls2]

/-- C4 witness: `cover_letter/classic` binds `ClassicCoverLetterHelper`, and
`resume/broken` fails with the error reporting the module's available
identifiers. -/
theorem C4_binding_convention_witness :
    (load_template fsWithCoverLetter Option.none "cover_letter" "classic").1 =
      .ok "ClassicCoverLetterHelper" ∧
    (load_template fsBroken Option.none "resume" "broken").1 =
      .error (.helperClassNotFound "BrokenResumeHelper" ["SomeOtherClass", "os"]) := by
  constructor
  · exact (C4_binding_convention fsWithCoverLetter Option.none
      [("resume", ["goodone"]), ("cover_letter", ["classic"])] "cover_letter"
      "classic" ["classic"] tplClassicCL rfl rfl rfl rfl).1 rfl
  · exact (C4_binding_convention fsBroken Option.none [("resume", ["broken"])]
      "resume" "broken" ["broken"] tplBroken rfl rfl rfl rfl).2 rfl

/-- C5 counterexample: with both pdflatex passes successful and the PDF
present in the scratch directory, the minimalist renderer's `export_to_pdf`
does not move the binary and return `output_path` as the claim states: it
fails on the unbound name `shutil`, which the module imports only under
`if __name__ == '__main__':`.  Also, a timed-out pass produces an error
carrying only the duration, not the captured log the claim promises. -/
theorem C5_counterexample :
    minimalist_export_to_pdf latexRunSuccess "out.pdf" = .nameError "shutil" ∧
    minimalist_export_to_pdf latexRunSuccess "out.pdf" ≠ .ok "out.pdf" ∧
    minimalist_export_to_pdf
        ⟨.timeoutExpired 30, .completed, some "latex log text", true⟩ "out.pdf" =
      .compilationTimedOut 30 := by
  refine ⟨rfl, by decide, rfl⟩

/-- C5 (amended): for both renderers, a pass that exits non-zero (the first
failing pass decides) fails the export with a compilation error carrying the
return code, stdout, stderr and the captured log; a timed-out pass fails it
with a timeout error carrying only the duration; if both passes succeed but
no PDF exists, the export fails with an artifact-missing error carrying the
log; and if the PDF exists, the twocolumn renderer returns `output_path`
while the minimalist renderer fails with a `NameError` on `shutil`. -/
theorem C5_export_error_contract (p2 : PassOutcome) (lg : Option String)
    (pdf : Bool) (path : String) (rc : Int) (out err : String) (t : Nat) :
    minimalist_export_to_pdf ⟨.calledProcessError rc out err, p2, lg, pdf⟩ path =
      .compilationFailed rc out err (lg.getD "") ∧
    twocolumn_export_to_pdf ⟨.calledProcessError rc out err, p2, lg, pdf⟩ path =
      .compilationFailed rc out err (lg.getD "") ∧
    minimalist_export_to_pdf ⟨.completed, .calledProcessError rc out err, lg, pdf⟩ path =
      .compilationFailed rc out err (lg.getD "") ∧
    twocolumn_export_to_pdf ⟨.completed, .calledProcessError rc out err, lg, pdf⟩ path =
      .compilationFailed rc out err (lg.getD "") ∧
    minimalist_export_to_pdf ⟨.timeoutExpired t, p2, lg, pdf⟩ path =
      .compilationTimedOut t ∧
    twocolumn_export_to_pdf ⟨.timeoutExpired t, p2, lg, pdf⟩ path =
      .compilationTimedOut t ∧
    minimalist_export_to_pdf ⟨.completed, .timeoutExpired t, lg, pdf⟩ path =
      .compilationTimedOut t ∧
    twocolumn_export_to_pdf ⟨.completed, .timeoutExpired t, lg, pdf⟩ path =
      .compilationTimedOut t ∧
    minimalist_export_to_pdf ⟨.completed, .completed, lg, false⟩ path =
      .pdfNotFound (lg.getD "") ∧
    twocolumn_export_to_pdf ⟨.completed, .completed, lg, false⟩ path =
      .pdfNotFound (lg.getD "") ∧
    twocolumn_export_to_pdf ⟨.completed, .completed, lg, true⟩ path = .ok path ∧
    minimalist_export_to_pdf ⟨.completed, .completed, lg, true⟩ path =
      .nameError "shutil" :=
  ⟨rfl, rfl, rfl, rfl, rfl, rfl, rfl, rfl, rfl, rfl, rfl, rfl⟩

/-- C6 counterexample: against storage holding only a `resume` category —
the layout this repository ships — a cover_letter+docx request fails with the
404 document-type-not-supported error from the catalog validation, not with
the unsupported-combination error the claim states every such request
produces. -/
theorem C6_counterexample :
    (generate_document fsMain Option.none
        ⟨.cover_letter, "classic", .docx, true⟩ (.ok ()) "scratch.docx").1.response =
      .error (.docTypeNotSupported "cover_letter") ∧
    (GenError.docTypeNotSupported "cover_letter").statusCode = 404 ∧
    GenError.docTypeNotSupported "cover_letter" ≠ GenError.docxOnlyForResumes := by
  refine ⟨rfl, rfl, by decide⟩

/-- C6 (amended): a cover_letter+docx request never allocates an output
file, whatever the storage state; and when the request passes catalog
validation (cover_letter is a catalog key and the template is in its entry)
it fails with the 400 unsupported-combination error. -/
theorem C6_cover_letter_docx_rejected (fs : TemplatesDir) (cache : Option Catalog)
    (tmpl : String) (cleanup : Bool) (render : Except String Unit) (scratch : String) :
    ((generate_document fs cache ⟨.cover_letter, tmpl, .docx, cleanup⟩
        render scratch).1.scratchAllocated = false ∧
     (generate_document fs cache ⟨.cover_letter, tmpl, .docx, cleanup⟩
        render scratch).1.scratchOnDisk = false) ∧
    (∀ available names,
      (get_available_templates_all fs cache).1 = .ok available →
      catalogFind available "cover_letter" = some names →
      names.contains tmpl = true →
      (generate_document fs cache ⟨.cover_letter, tmpl, .docx, cleanup⟩
          render scratch).1.response = .error .docxOnlyForResumes) := by
  rcases hg : get_available_templates_all fs cache with ⟨res, cache2, n⟩
  constructor
  · cases res with
    | error e => simp [generate_document, hg]
    | ok available =>
      cases hf : catalogFind available "cover_letter" with
      | none => simp [generate_document, hg, DocumentType.value, hf]
      | some tmpls =>
        by_cases hc : tmpl ∈ tmpls
        · simp [generate_document, hg, DocumentType.value, hf, hc]
        · simp [generate_document, hg, DocumentType.value, hf, hc]
  · intro available names h1 h2 h3
    have hres : res = .ok available := h1
    subst hres
    have h4 : tmpl ∈ names := by simpa using h3
    simp [generate_document, hg, DocumentType.value, h2, h4]

/-- C6 witness: with a catalog that does contain `cover_letter/classic`, the
request fails with the unsupported-combination error and no file was
allocated. -/
theorem C6_cover_letter_docx_rejected_witness :
    (generate_document fsWithCoverLetter Option.none
        ⟨.cover_letter, "classic", .docx, true⟩ (.ok ()) "scratch.docx").1.response =
      .error .docxOnlyForResumes ∧
    (generate_document fsWithCoverLetter Option.none
        ⟨.cover_letter, "classic", .docx, true⟩ (.ok ()) "scratch.docx").1.scratchAllocated =
      false := by
  constructor
  · exact (C6_cover_letter_docx_rejected fsWithCoverLetter Option.none "classic"
      true (.ok ()) "scratch.docx").2
      [("resume", ["goodone"]), ("cover_letter", ["classic"])] ["classic"] rfl rfl rfl
  · exact (C6_cover_letter_docx_rejected fsWithCoverLetter Option.none "classic"
      true (.ok ()) "scratch.docx").1.1

/-- C7: whenever `/generate` ends in a raised `HTTPException`, no scratch
output file remains on disk: errors before allocation never create one, and
a renderer failure after allocation removes the partially written file
before the 500 error propagates. -/
theorem C7_error_leaves_no_scratch (fs : TemplatesDir) (cache : Option Catalog)
    (req : GenRequest) (render : Except String Unit) (scratch : String)
    (e : GenError)
    (h : (generate_document fs cache req render scratch).1.response = .error e) :
    (generate_document fs cache req render scratch).1.scratchOnDisk = false := by
  obtain ⟨dt, tname, fmt, cu⟩ := req
  rcases hg : get_available_templates_all fs cache with ⟨res, cache2, n⟩
  cases res with
  | error msg => simp [generate_document, hg]
  | ok available =>
    cases hf : catalogFind available dt.value with
    | none => simp [generate_document, hg, hf]
    | some tmpls =>
      by_cases hc : tname ∈ tmpls
      · cases fmt with
        | pdf =>
          cases render with
          | ok u => simp [generate_document, hg, hf, hc] at h
          | error msg => simp [generate_document, hg, hf, hc]
        | docx =>
          cases dt with
          | cover_letter => simp [generate_document, hg, hf, hc]
          | resume =>
            cases render with
            | ok u => simp [generate_document, hg, hf, hc] at h
            | error msg => simp [generate_document, hg, hf, hc]
      · simp [generate_document, hg, hf, hc]

/-- C7 witness: a failing PDF render on a valid request leaves no scratch
file behind. -/
theorem C7_error_leaves_no_scratch_witness :
    (generate_document fsMain Option.none ⟨.resume, "goodone", .pdf, true⟩
        (.error "pdflatex failed") "scratch.pdf").1.scratchOnDisk = false :=
  C7_error_leaves_no_scratch fsMain Option.none ⟨.resume, "goodone", .pdf, true⟩
    (.error "pdflatex failed") "scratch.pdf" (.generationFailed "pdflatex failed") rfl

/-- C8 counterexample: when an experience entry's `details` is the single
string `"ab"`, the minimalist experience-section generator does not treat it
as a one-item sequence: iterating the string yields its characters, so two
`\item` lines are emitted, not one. -/
theorem C8_counterexample :
    minimalistDetailItems (.str "ab") =
      ["            \\item a", "            \\item b"] ∧
    (minimalistDetailItems (.str "ab")).length ≠ 1 := by
  refine ⟨rfl, by decide⟩

/-- C8 (amended): only the DOCX generator treats a string-valued `details` as
a one-item sequence; the minimalist and twocolumn LaTeX generators iterate
the string character by character, emitting one `\item` line per character
(the minimalist one escaping each character again); none of the three raises
an error. -/
theorem C8_string_details_one_item_only_in_docx (s : String) :
    docxDetailBullets (.str s) = [s] ∧
    minimalistDetailItems (.str s) =
      s.data.map (fun c =>
        "            \\item " ++ escape_latex_special_chars (String.mk [c])) ∧
    twocolumnDetailItems (.str s) =
      s.data.map (fun c => "            \\item " ++ String.mk [c]) := by
  refine ⟨rfl, ?_, ?_⟩
  · by_cases h : s = ""
    · subst h
      rfl
    · have ht : pyTruthy (.str s) = true := by
        simp [pyTruthy]
        exact h
      simp [minimalistDetailItems, ht, pyIterate, List.map_map, Function.comp,
        escapeIfStr, pyStrOf]
  · simp [twocolumnDetailItems, pyIterate, List.map_map, Function.comp, pyStrOf]

/-- The recursive escaper maps a list of string leaves to the list of their
escaped values. -/
theorem escapeRecList_map_str (raw : List String) :
    escapeRecList (raw.map PyVal.str) =
      raw.map (fun r => PyVal.str (escape_latex_special_chars r)) := by
  induction raw with
  | nil => rfl
  | cons r rest ih =>
    simp [escapeRecList, escape_latex_special_chars_recursive, ih]

/-- C10: the minimalist renderer escapes each experience detail twice — once
when `__init__` escapes the whole data tree and once more per detail in
`_generate_experience_section` — so the emitted `\item` text is the escape of
the already-escaped string, whereas the twocolumn renderer escapes each
detail exactly once; and on a detail containing an escapable character (`&`)
the double escape differs from the single-pass escape. -/
theorem C10_minimalist_double_escape (raw : List String) :
    minimalistPipelineDetailItems raw =
      raw.map (fun r => "            \\item " ++
        escape_latex_special_chars (escape_latex_special_chars r)) ∧
    twocolumnPipelineDetailItems raw =
      raw.map (fun r => "            \\item " ++ escape_latex_special_chars r) ∧
    escape_latex_special_chars (escape_latex_special_chars "&") ≠
      escape_latex_special_chars "&" := by
  refine ⟨?_, ?_, by decide⟩
  · unfold minimalistPipelineDetailItems
    simp only [escape_latex_special_chars_recursive, escapeRecList_map_str]
    cases raw with
    | nil => rfl
    | cons r rest =>
      simp [minimalistDetailItems, pyTruthy, pyIterate, List.map_map,
        Function.comp, escapeIfStr, pyStrOf]
  · unfold twocolumnPipelineDetailItems
    simp only [escape_latex_special_chars_recursive, escapeRecList_map_str]
    simp [twocolumnDetailItems, pyIterate, List.map_map, Function.comp, pyStrOf]

end ResumeEngine
